import Mathlib

/-!
Shallow embedding of muport-core-js (`src/muport.js`).

The identity controller (`MuPort` class) is translated into pure Lean
functions.  JavaScript mutation of `this` becomes explicit state passing on
`MuPortState`; `async` failures (thrown errors / rejected promises) become
`Except`; the side effects performed against external collaborators are
logged as an explicit `List Effect` so frame properties can be stated.

External collaborators (the ipfs content store, the DID resolver, bs58) and
the repository modules `./keyring` and `./ethereum-utils` (required by
`muport.js` but whose sources are not part of the embedded tree) enter as
record-of-functions parameters (`Env`, `Keyring`, `Bs58`): `muport.js` only
composes their results, so every claim below is settled by the composition
logic that *is* in `muport.js`, with the collaborator behaviour universally
quantified or constrained by exactly the hypotheses the claims state.
-/

namespace Muport

/-- A JS `Buffer` as a list of byte values. -/
abbrev Buffer := List Nat

/-- Result of `keyring.symEncrypt`: an object `{ ciphertext, nonce }` as
stored in `symEncDids` and consumed by `getRecoveryDelegateDids`. -/
structure EncDid where
  ciphertext : String
  nonce : String
deriving DecidableEq

/-- The three public keys returned by `keyring.getPublicKeys()` and spread
into the document by `createMuportDocument`. -/
structure PublicKeys where
  signingKey : String
  managementKey : String
  asymEncryptionKey : String
deriving DecidableEq

/-- The `{ name }` object built in `newIdentity` / `resolveIdentityDocument`. -/
structure PublicProfile where
  name : String
deriving DecidableEq

/-- One entry of the recovery network produced by `keyring.createShares`:
a delegate identifier together with the share encrypted to it. -/
structure RecoveryEntry where
  delegateDid : String
  encryptedShare : String
deriving DecidableEq

/-- The value of `keyring.createShares(delegateDids, didsPublicKeys)`,
treated opaquely by `muport.js` (it is only stored in the document). -/
abbrev RecoveryNetwork := List RecoveryEntry

/-- The object literal `{symEncDids: symEncryptedDelegateDids}` that
`newIdentity` always passes as the fourth argument of
`createMuportDocument`.  The inner value is `undefined` (here `none`) when
the identity is created without delegates, but the wrapper object itself
always exists. -/
structure SymEncryptedData where
  symEncDids : Option (List EncDid)
deriving DecidableEq

/-- The muport identity document assembled by `createMuportDocument`.
`Option` with value `none` models a JS object key that is absent from the
object (conditional property addition in the source). -/
structure Doc where
  version : Nat
  signingKey : String
  managementKey : String
  asymEncryptionKey : String
  recoveryNetwork : Option RecoveryNetwork
  publicProfile : Option PublicProfile
  symEncryptedData : Option SymEncryptedData
deriving DecidableEq

/-- Errors surfacing from the embedded operations.  `jsError` is an error
thrown by `muport.js` itself (the two `throw new Error(...)` sites and the
`TypeError` a property access on `undefined` raises); `ext` is a rejection
propagated from a collaborator call. -/
inductive Err where
  | jsError (msg : String)
  | ext (msg : String)
deriving DecidableEq

/-- Externally visible side effects performed by the embedded operations,
logged in order. -/
inductive Effect where
  | initIpfs
  | registerResolver
  | resolveDid (did : String)
  | createShares
  | ipfsAdd
  | buildTx
  | broadcast (tx : String)
deriving DecidableEq

/-- Modelled from the spec: the repository module `./keyring` is required by
`muport.js` but its source is not in the embedded tree; only the operations
`muport.js` calls are modelled, as an abstract record of functions per the
spec's KeyManager/SecretSharer interfaces (sections 4.1 and 4.2):
`getPublicKeys`, `createShares` (fallible), `symEncrypt`/`symDecrypt`,
`getManagementAddress`, local transaction signing and serialization. -/
structure Keyring where
  getPublicKeys : PublicKeys
  createShares : List String → List String → Except String RecoveryNetwork
  symEncrypt : Buffer → EncDid
  symDecrypt : String → String → Buffer
  getManagementAddress : String
  signManagementTx : String → String
  serializedForm : String

/-- The external base58 codec (`bs58`), used by `bufferToDid`/`didToBuffer`. -/
structure Bs58 where
  encode : Buffer → String
  decode : String → Buffer

/-- The external collaborators of `muport.js`: the DID resolver composed
with the document-shape extraction of `resolveIdentityDocument` (of which
only the delegate's `asymEncryptionKey` is consumed here), the ipfs content
store, and the `./ethereum-utils` module.  `./ethereum-utils` is repository
code missing from the embedded tree; modelled from the spec
(AnchorTransactionBuilder, section 6): `createPublishTxParams` builds the
anchoring transaction parameters, `calculateTxCost` estimates the fee, and
only `sendRawTx` broadcasts.  `restoreKeyring` is the `Keyring` class
constructor applied to serialized key material. -/
structure Env where
  resolveAsymKey : String → Except String String
  ipfsAddJSON : Doc → Except String String
  createPublishTxParams : String → String → Except String String
  calculateTxCost : String → String
  sendRawTx : String → Except String Unit
  restoreKeyring : String → Keyring

/-- The mutable instance state of a `MuPort` object: `this.did`,
`this.document`, `this.documentHash` (which can be `undefined` in JS, hence
`Option`), `this.keyring`. -/
structure MuPortState where
  did : String
  document : Doc
  documentHash : Option String
  keyring : Keyring

/-- The options object passed to the `MuPort` constructor.  `none` models an
absent/`undefined` property. -/
structure CtorOpts where
  did : Option String
  document : Option Doc
  documentHash : Option String
  keyring : Option String

/-- The value returned by a successful `updateDelegates`: the management
address, the estimated cost, and the eagerly signed transaction captured by
the `finishUpdate` closure. -/
structure UpdateResult where
  address : String
  costInEther : String
  signedTx : String
deriving DecidableEq

/-- JS truthiness of an optional string value (`undefined` and the empty
string are falsy). -/
def strTruthy : Option String → Bool
  | none => false
  | some s => s != ""

/-- The JS short-circuit `a || b` on optional string values. -/
def jsOrStr (a b : Option String) : Option String :=
  if strTruthy a then a else b

/-- JS `s.split(':')`. -/
def splitColon (s : String) : List String :=
  (s.data.splitOn ':').map String.mk

/-- `createMuportDocument` (muport.js lines 162-177): starts from
`{version: 1, ...publicKeys}` and adds each optional field only when the
corresponding argument is truthy (present). -/
def createMuportDocument (publicKeys : PublicKeys)
    (recoveryNetwork : Option RecoveryNetwork)
    (publicProfile : Option PublicProfile)
    (symEncryptedData : Option SymEncryptedData) : Doc :=
  { version := 1
    signingKey := publicKeys.signingKey
    managementKey := publicKeys.managementKey
    asymEncryptionKey := publicKeys.asymEncryptionKey
    recoveryNetwork := recoveryNetwork
    publicProfile := publicProfile
    symEncryptedData := symEncryptedData }

/-- `bufferToDid` (lines 179-181). -/
def bufferToDid (b : Bs58) (didBuffer : Buffer) : String :=
  "did:muport:" ++ b.encode didBuffer

/-- `didToBuffer` (lines 183-186): takes the third colon-separated segment
of the DID and base58-decodes it. -/
def didToBuffer (b : Bs58) (didUri : String) : Buffer :=
  b.decode ((splitColon didUri).getD 2 "")

/-- The inline delegate-list encryption of `newIdentity` (line 111):
`delegateDids.map((did) => keyring.symEncrypt(didToBuffer(did)))`. -/
def encryptDids (kr : Keyring) (b : Bs58) (dids : List String) : List EncDid :=
  dids.map (fun d => kr.symEncrypt (didToBuffer b d))

/-- The `MuPort` constructor (lines 15-29): throws when `did`, `document`
or `keyring` is missing (falsy), before any other effect; otherwise
initializes ipfs, stores the fields with
`documentHash = opts.documentHash || did.split(':')[2]`, restores the
keyring, and registers the resolver. -/
def construct (env : Env) (opts : CtorOpts) :
    Except Err MuPortState × List Effect :=
  match opts.did, opts.document, opts.keyring with
  | some did, some document, some keyringData =>
    if did = "" then
      (Except.error (Err.jsError "Data missing for restoring identity"), [])
    else
      (Except.ok
        { did := did
          document := document
          documentHash := jsOrStr opts.documentHash ((splitColon did)[2]?)
          keyring := env.restoreKeyring keyringData },
       [Effect.initIpfs, Effect.registerResolver])
  | _, _, _ =>
    (Except.error (Err.jsError "Data missing for restoring identity"), [])

/-- `serializeState` (lines 92-99): the serialized local state. -/
structure SerializedState where
  did : String
  document : Doc
  documentHash : Option String
  keyring : String
deriving DecidableEq

/-- `serializeState` (lines 92-99). -/
def serializeState (s : MuPortState) : SerializedState :=
  { did := s.did
    document := s.document
    documentHash := s.documentHash
    keyring := s.keyring.serializedForm }

/-- Passing a serialized state object back into `new MuPort(...)`. -/
def optsOfSerialized (ss : SerializedState) : CtorOpts :=
  { did := some ss.did
    document := some ss.document
    documentHash := ss.documentHash
    keyring := some ss.keyring }

/-- The `Promise.all` of `MuPort.resolveIdentityDocument(did)` calls in
`updateDelegates`/`newIdentity`, keeping each delegate's
`asymEncryptionKey`; any single rejection rejects the whole batch. -/
def resolveAll (env : Env) (dids : List String) :
    Except String (List String) × List Effect :=
  match dids with
  | [] => (Except.ok [], [])
  | d :: rest =>
    match env.resolveAsymKey d with
    | Except.error e => (Except.error e, [Effect.resolveDid d])
    | Except.ok k =>
      match resolveAll env rest with
      | (Except.error e, effs) => (Except.error e, Effect.resolveDid d :: effs)
      | (Except.ok ks, effs) => (Except.ok (k :: ks), Effect.resolveDid d :: effs)

/-- `updateDelegates` (lines 56-77): length guard, delegate key resolution,
share creation, then in-place mutation of `this.document.recoveryNetwork`,
republication (`this.documentHash = await ipfs.addJSONAsync(...)`), and
assembly of the transaction result.  The returned state is the value of
`this` when the call settles, mirroring the source's mutation order. -/
def updateDelegates (env : Env) (s : MuPortState) (delegateDids : List String) :
    Except Err UpdateResult × MuPortState × List Effect :=
  if delegateDids.length = 3 then
    match resolveAll env delegateDids with
    | (Except.error e, effs) => (Except.error (Err.ext e), s, effs)
    | (Except.ok didsPublicKeys, effs) =>
      match s.keyring.createShares delegateDids didsPublicKeys with
      | Except.error e =>
        (Except.error (Err.ext e), s, effs ++ [Effect.createShares])
      | Except.ok recoveryNetwork =>
        let s1 : MuPortState :=
          { s with document :=
              { s.document with recoveryNetwork := some recoveryNetwork } }
        match env.ipfsAddJSON s1.document with
        | Except.error e =>
          (Except.error (Err.ext e), s1,
           effs ++ [Effect.createShares, Effect.ipfsAdd])
        | Except.ok documentHash =>
          let s2 : MuPortState := { s1 with documentHash := some documentHash }
          let address := s.keyring.getManagementAddress
          match env.createPublishTxParams documentHash address with
          | Except.error e =>
            (Except.error (Err.ext e), s2,
             effs ++ [Effect.createShares, Effect.ipfsAdd, Effect.buildTx])
          | Except.ok txParams =>
            (Except.ok
              { address := address
                costInEther := env.calculateTxCost txParams
                signedTx := s.keyring.signManagementTx txParams }, s2,
             effs ++ [Effect.createShares, Effect.ipfsAdd, Effect.buildTx])
  else (Except.error (Err.jsError "Must provide exactly 3 DIDs"), s, [])

/-- The `finishUpdate` closure returned by `updateDelegates`: broadcasting
the already-signed transaction is its only effect. -/
def finishUpdate (env : Env) (r : UpdateResult) :
    Except Err Unit × List Effect :=
  (match env.sendRawTx r.signedTx with
   | Except.error e => Except.error (Err.ext e)
   | Except.ok _ => Except.ok (), [Effect.broadcast r.signedTx])

/-- `getRecoveryDelegateDids` (lines 45-54): reads
`this.document.symEncryptedData.symEncDids` (a `TypeError` when
`symEncryptedData` is absent), and when the list is present decrypts each
entry and turns the buffer back into a DID. -/
def getRecoveryDelegateDids (b : Bs58) (s : MuPortState) :
    Except Err (List String) :=
  match s.document.symEncryptedData with
  | none => Except.error (Err.jsError "TypeError: symEncryptedData undefined")
  | some sed =>
    match sed.symEncDids with
    | none => Except.ok []
    | some encDids =>
      Except.ok (encDids.map
        (fun e => bufferToDid b (s.keyring.symDecrypt e.ciphertext e.nonce)))

/-- Tail of `newIdentity` (lines 114-126): assemble the document — note the
always-truthy `{name}` and `{symEncDids: ...}` object literals — publish it,
derive the DID from the content address and run the constructor. -/
def publishAndConstruct (env : Env) (kr : Keyring) (name : String)
    (recoveryNetwork : Option RecoveryNetwork)
    (symEncryptedDelegateDids : Option (List EncDid)) (effs0 : List Effect) :
    Except Err MuPortState × List Effect :=
  let doc := createMuportDocument kr.getPublicKeys recoveryNetwork
      (some { name := name }) (some { symEncDids := symEncryptedDelegateDids })
  match env.ipfsAddJSON doc with
  | Except.error e => (Except.error (Err.ext e), effs0 ++ [Effect.ipfsAdd])
  | Except.ok docHash =>
    match construct env
        { did := some ("did:muport:" ++ docHash)
          document := some doc
          documentHash := some docHash
          keyring := some kr.serializedForm } with
    | (r, ceffs) => (r, effs0 ++ [Effect.ipfsAdd] ++ ceffs)

/-- `newIdentity` (lines 101-127).  The fresh keyring generated by
`new Keyring()` is the parameter `kr` (key generation is the keyring's
affair).  `delegateDids` is `Option` because the parameter may be
`undefined`; when it is an array — of any length, unvalidated — each
delegate's key is resolved, shares are created and the delegate list is
symmetrically encrypted. -/
def newIdentity (env : Env) (kr : Keyring) (b : Bs58) (name : String)
    (delegateDids : Option (List String)) :
    Except Err MuPortState × List Effect :=
  match delegateDids with
  | none => publishAndConstruct env kr name none none [Effect.initIpfs]
  | some dids =>
    match resolveAll env dids with
    | (Except.error e, effs) =>
      (Except.error (Err.ext e), Effect.initIpfs :: effs)
    | (Except.ok didsPublicKeys, effs) =>
      match kr.createShares dids didsPublicKeys with
      | Except.error e =>
        (Except.error (Err.ext e),
         Effect.initIpfs :: (effs ++ [Effect.createShares]))
      | Except.ok recoveryNetwork =>
        publishAndConstruct env kr name (some recoveryNetwork)
          (some (encryptDids kr b dids))
          (Effect.initIpfs :: (effs ++ [Effect.createShares]))

/-- A broadcast effect recogniser, for frame statements. -/
def Effect.isBroadcast : Effect → Bool
  | Effect.broadcast _ => true
  | _ => false

/-- Whether an effect trace contains a ledger broadcast. -/
def hasBroadcast (l : List Effect) : Bool := l.any Effect.isBroadcast

/-- Whether a constructed identity's document carries the
`symEncryptedData` key. -/
def okHasSymEncField : Except Err MuPortState → Bool
  | Except.ok st => st.document.symEncryptedData.isSome
  | Except.error _ => false

/-- Concrete public keys for evaluating the embedding on closed inputs. -/
def pk0 : PublicKeys :=
  { signingKey := "sk", managementKey := "mk", asymEncryptionKey := "ek" }

/-- A concrete keyring instance for evaluating the embedding: symmetric
encryption renders the byte buffer as a string and decryption reads it
back, shares are tagged per delegate. -/
def kr0 : Keyring :=
  { getPublicKeys := pk0
    createShares := fun dids _ =>
      Except.ok (dids.map (fun d => { delegateDid := d, encryptedShare := "share" }))
    symEncrypt := fun buf =>
      { ciphertext := String.mk (buf.map Char.ofNat), nonce := "n" }
    symDecrypt := fun c _ => c.data.map Char.toNat
    getManagementAddress := "0xmanagement"
    signManagementTx := fun tp => "signed:" ++ tp
    serializedForm := "keyring-data" }

/-- A concrete base58 codec stub rendering bytes as characters. -/
def b0 : Bs58 :=
  { encode := fun buf => String.mk (buf.map Char.ofNat)
    decode := fun s => s.data.map Char.toNat }

/-- A concrete environment in which every collaborator call succeeds. -/
def env0 : Env :=
  { resolveAsymKey := fun _ => Except.ok "delegate-asym-key"
    ipfsAddJSON := fun _ => Except.ok "Qmhash"
    createPublishTxParams := fun _ _ => Except.ok "txparams"
    calculateTxCost := fun _ => "0.0001"
    sendRawTx := fun _ => Except.ok ()
    restoreKeyring := fun _ => kr0 }

/-- An environment in which publishing to the content store fails. -/
def envPubFail : Env := { env0 with ipfsAddJSON := fun _ => Except.error "ipfs down" }

/-- An environment in which delegate DID resolution fails. -/
def envResolveFail : Env :=
  { env0 with resolveAsymKey := fun _ => Except.error "resolver down" }

/-- Three concrete well-formed delegate DIDs. -/
def dids3 : List String := ["did:muport:a", "did:muport:b", "did:muport:c"]

/-- A concrete pre-update document holding an (empty) old recovery
network. -/
def doc0 : Doc :=
  { version := 1, signingKey := "sk", managementKey := "mk"
    asymEncryptionKey := "ek", recoveryNetwork := some []
    publicProfile := none, symEncryptedData := some { symEncDids := none } }

/-- A concrete pre-update identity state. -/
def s0 : MuPortState :=
  { did := "did:muport:oldhash", document := doc0
    documentHash := some "oldhash", keyring := kr0 }

/-- The recovery network `kr0.createShares` produces for `dids3`. -/
def rn3 : RecoveryNetwork :=
  dids3.map (fun d => { delegateDid := d, encryptedShare := "share" })

/-- The encrypted delegate list `kr0`/`b0` produce for `dids3`. -/
def encDids3 : List EncDid :=
  [{ ciphertext := "a", nonce := "n" }, { ciphertext := "b", nonce := "n" },
   { ciphertext := "c", nonce := "n" }]

/-- The document `newIdentity env0 kr0 b0 "alice" (some dids3)` builds. -/
def docW7 : Doc :=
  { version := 1, signingKey := "sk", managementKey := "mk"
    asymEncryptionKey := "ek", recoveryNetwork := some rn3
    publicProfile := some { name := "alice" }
    symEncryptedData := some { symEncDids := some encDids3 } }

/-- The state `newIdentity env0 kr0 b0 "alice" (some dids3)` returns. -/
def stW7 : MuPortState :=
  { did := "did:muport:Qmhash", document := docW7
    documentHash := some "Qmhash", keyring := kr0 }

/-- The effect trace of `newIdentity env0 kr0 b0 "alice" (some dids3)`. -/
def effsW7 : List Effect :=
  [Effect.initIpfs, Effect.resolveDid "did:muport:a",
   Effect.resolveDid "did:muport:b", Effect.resolveDid "did:muport:c",
   Effect.createShares, Effect.ipfsAdd, Effect.initIpfs,
   Effect.registerResolver]

/-- The document `newIdentity env0 kr0 b0 "bob" none` builds: no recovery
network, but the always-present profile and `symEncryptedData` wrapper. -/
def docW3 : Doc :=
  { version := 1, signingKey := "sk", managementKey := "mk"
    asymEncryptionKey := "ek", recoveryNetwork := none
    publicProfile := some { name := "bob" }
    symEncryptedData := some { symEncDids := none } }

/-- The state `newIdentity env0 kr0 b0 "bob" none` returns. -/
def stW3 : MuPortState :=
  { did := "did:muport:Qmhash", document := docW3
    documentHash := some "Qmhash", keyring := kr0 }

/-- The effect trace of `newIdentity env0 kr0 b0 "bob" none`. -/
def effsW3 : List Effect :=
  [Effect.initIpfs, Effect.ipfsAdd, Effect.initIpfs, Effect.registerResolver]

/-- The document after `updateDelegates env0 s0 dids3`: the old document
with the recovery network replaced. -/
def docAfter : Doc := { doc0 with recoveryNetwork := some rn3 }

/-- The state after `updateDelegates env0 s0 dids3`. -/
def s0after : MuPortState :=
  { s0 with document := docAfter, documentHash := some "Qmhash" }

/-- The result of `updateDelegates env0 s0 dids3`. -/
def r0 : UpdateResult :=
  { address := "0xmanagement", costInEther := "0.0001"
    signedTx := "signed:txparams" }

/-- The effect trace of `updateDelegates env0 s0 dids3`. -/
def effsUpd : List Effect :=
  [Effect.resolveDid "did:muport:a", Effect.resolveDid "did:muport:b",
   Effect.resolveDid "did:muport:c", Effect.createShares, Effect.ipfsAdd,
   Effect.buildTx]

end Muport

namespace Muport

/-- Auxiliary: a map whose function fixes every element of the list is the
identity on that list. -/
theorem listMapSelf {α : Type} (f : α → α) (l : List α)
    (h : ∀ a ∈ l, f a = a) : l.map f = l := by
  induction l with
  | nil => rfl
  | cons a t ih =>
    have h1 : f a = a := h a (List.mem_cons_self a t)
    have h2 : t.map f = t := ih (fun x hx => h x (List.mem_cons_of_mem a hx))
    rw [List.map_cons, h1, h2]

/-- Auxiliary: delegate-key resolution performs no ledger broadcast. -/
theorem resolveAll_no_broadcast (env : Env) (dids : List String) :
    hasBroadcast (resolveAll env dids).2 = false := by
  induction dids with
  | nil => rfl
  | cons d rest ih =>
    rw [resolveAll]
    cases h : env.resolveAsymKey d with
    | error e => rfl
    | ok k =>
      rcases hr : resolveAll env rest with ⟨r, effs⟩
      rw [hr] at ih
      cases r with
      | error e =>
        simpa [hasBroadcast, Effect.isBroadcast] using ih
      | ok ks =>
        simpa [hasBroadcast, Effect.isBroadcast] using ih

/-- C1: `updateDelegates` raises its validation error exactly when the
delegate list does not have length 3; with a length-3 list that validation
never fires (any remaining failure is a propagated collaborator error, a
different error constructor). -/
theorem updateDelegates_length_guard (env : Env) (s : MuPortState)
    (delegateDids : List String) :
    (updateDelegates env s delegateDids).1
      = Except.error (Err.jsError "Must provide exactly 3 DIDs")
    ↔ delegateDids.length ≠ 3 := by
  constructor
  · intro h hlen
    rw [updateDelegates, if_pos hlen] at h
    split at h
    · simp at h
    · split at h
      · simp at h
      · dsimp only at h
        split at h
        · simp at h
        · split at h
          · simp at h
          · simp at h
  · intro hlen
    rw [updateDelegates, if_neg hlen]

/-- Witness for C1 at concrete inputs: a 2-element list fires the
validation error. -/
theorem updateDelegates_length_guard_witness :
    (updateDelegates env0 s0 ["did:muport:a", "did:muport:b"]).1
      = Except.error (Err.jsError "Must provide exactly 3 DIDs") :=
  (updateDelegates_length_guard env0 s0 ["did:muport:a", "did:muport:b"]).mpr
    (by decide)

/-- C5: `updateDelegates` performs no ledger broadcast on any path — the
signed transaction is only handed back, and broadcasting it is the sole
effect of the returned `finishUpdate` closure. -/
theorem updateDelegates_defers_broadcast (env : Env) (s : MuPortState)
    (delegateDids : List String) :
    hasBroadcast (updateDelegates env s delegateDids).2.2 = false ∧
    ∀ r : UpdateResult, (finishUpdate env r).2 = [Effect.broadcast r.signedTx] := by
  refine ⟨?_, fun r => rfl⟩
  have hres := resolveAll_no_broadcast env delegateDids
  rw [updateDelegates]
  split
  · split
    · rename_i e effs heq
      rw [heq] at hres
      simpa using hres
    · rename_i ks effs heq
      rw [heq] at hres
      split
      · simpa [hasBroadcast, List.any_append, Effect.isBroadcast] using hres
      · dsimp only
        split
        · simpa [hasBroadcast, List.any_append, Effect.isBroadcast] using hres
        · split
          · simpa [hasBroadcast, List.any_append, Effect.isBroadcast] using hres
          · simpa [hasBroadcast, List.any_append, Effect.isBroadcast] using hres
  · rfl

/-- C2 counterexample: a concrete successful `updateDelegates` republishes
the document with its `version` unchanged (1), not strictly greater. -/
theorem updateDelegates_version_not_incremented :
    (updateDelegates env0 s0 dids3).1.isOk = true ∧
    ¬ s0.document.version < (updateDelegates env0 s0 dids3).2.1.document.version := by
  exact ⟨rfl, by decide⟩

/-- C2 amended: a successful `updateDelegates` leaves the document's
`version` unchanged, and `createMuportDocument` always pins `version` to 1
— republication does not increment it. -/
theorem updateDelegates_version_pinned (env : Env) (s : MuPortState)
    (delegateDids : List String) (r : UpdateResult) (s' : MuPortState)
    (effs : List Effect)
    (h : updateDelegates env s delegateDids = (Except.ok r, s', effs)) :
    s'.document.version = s.document.version ∧
    ∀ pk rn pp sed, (createMuportDocument pk rn pp sed).version = 1 := by
  refine ⟨?_, fun pk rn pp sed => rfl⟩
  rw [updateDelegates] at h
  split at h
  · split at h
    · simp at h
    · split at h
      · simp at h
      · dsimp only at h
        split at h
        · simp at h
        · split at h
          · simp at h
          · simp only [Prod.mk.injEq] at h
            obtain ⟨h1, h2, h3⟩ := h
            rw [← h2]
  · simp at h

/-- Witness for C2's amended theorem at concrete inputs. -/
theorem updateDelegates_version_pinned_witness :
    s0after.document.version = s0.document.version ∧
    ∀ pk rn pp sed, (createMuportDocument pk rn pp sed).version = 1 :=
  updateDelegates_version_pinned env0 s0 dids3 r0 s0after effsUpd rfl

/-- C4 counterexample: with a failing content-store publish,
`updateDelegates` fails, yet the identity's stored document has already
been mutated with the new recovery network — a partially-applied update
remains. -/
theorem updateDelegates_publish_failure_mutates :
    (updateDelegates envPubFail s0 dids3).1 = Except.error (Err.ext "ipfs down") ∧
    (updateDelegates envPubFail s0 dids3).2.1.document ≠ s0.document := by
  exact ⟨rfl, by decide⟩

/-- C4 amended, phase by phase: a validation failure, a delegate-resolution
failure or a share-creation failure leaves the identity's state unchanged;
but a publish failure leaves the document already mutated with the new
recovery network (content address unchanged), and a transaction-building
failure additionally leaves the new content address stored. -/
theorem updateDelegates_failure_state (env : Env) (s : MuPortState)
    (delegateDids : List String) :
    (delegateDids.length ≠ 3 →
      (updateDelegates env s delegateDids).2.1 = s) ∧
    (∀ e effs, delegateDids.length = 3 →
      resolveAll env delegateDids = (Except.error e, effs) →
      (updateDelegates env s delegateDids).2.1 = s) ∧
    (∀ ks effs e, delegateDids.length = 3 →
      resolveAll env delegateDids = (Except.ok ks, effs) →
      s.keyring.createShares delegateDids ks = Except.error e →
      (updateDelegates env s delegateDids).2.1 = s) ∧
    (∀ ks effs rn e, delegateDids.length = 3 →
      resolveAll env delegateDids = (Except.ok ks, effs) →
      s.keyring.createShares delegateDids ks = Except.ok rn →
      env.ipfsAddJSON { s.document with recoveryNetwork := some rn }
        = Except.error e →
      (updateDelegates env s delegateDids).2.1
        = { s with document :=
              { s.document with recoveryNetwork := some rn } }) ∧
    (∀ ks effs rn hsh e, delegateDids.length = 3 →
      resolveAll env delegateDids = (Except.ok ks, effs) →
      s.keyring.createShares delegateDids ks = Except.ok rn →
      env.ipfsAddJSON { s.document with recoveryNetwork := some rn }
        = Except.ok hsh →
      env.createPublishTxParams hsh s.keyring.getManagementAddress
        = Except.error e →
      (updateDelegates env s delegateDids).2.1
        = { s with
            document := { s.document with recoveryNetwork := some rn }
            documentHash := some hsh }) := by
  refine ⟨?_, ?_, ?_, ?_, ?_⟩
  · intro hlen
    rw [updateDelegates, if_neg hlen]
  · intro e effs hlen hres
    rw [updateDelegates, if_pos hlen, hres]
  · intro ks effs e hlen hres hcs
    rw [updateDelegates, if_pos hlen, hres]
    dsimp only
    rw [hcs]
  · intro ks effs rn e hlen hres hcs hipfs
    rw [updateDelegates, if_pos hlen, hres]
    dsimp only
    rw [hcs]
    dsimp only
    rw [hipfs]
  · intro ks effs rn hsh e hlen hres hcs hipfs htx
    rw [updateDelegates, if_pos hlen, hres]
    dsimp only
    rw [hcs]
    dsimp only
    rw [hipfs]
    dsimp only
    rw [htx]

/-- Witness for C4's amended theorem: a resolution failure leaves the state
untouched, while a publish failure leaves the mutated document behind. -/
theorem updateDelegates_failure_state_witness :
    (updateDelegates envResolveFail s0 dids3).2.1 = s0 ∧
    (updateDelegates envPubFail s0 dids3).2.1
      = { s0 with document :=
            { s0.document with recoveryNetwork := some rn3 } } :=
  ⟨(updateDelegates_failure_state envResolveFail s0 dids3).2.1
      "resolver down" [Effect.resolveDid "did:muport:a"] (by decide) rfl,
   (updateDelegates_failure_state envPubFail s0 dids3).2.2.2.1
      ["delegate-asym-key", "delegate-asym-key", "delegate-asym-key"]
      [Effect.resolveDid "did:muport:a", Effect.resolveDid "did:muport:b",
       Effect.resolveDid "did:muport:c"]
      rn3 "ipfs down" (by decide) rfl rfl rfl⟩

/-- Auxiliary: a DID derived from a content address is never the empty
string. -/
theorem did_of_hash_ne_empty (hsh : String) : ("did:muport:" ++ hsh) ≠ "" := by
  intro heq
  have hlen := congrArg String.length heq
  rw [String.length_append] at hlen
  have h11 : "did:muport:".length = 11 := rfl
  rw [h11] at hlen
  simp at hlen

/-- Auxiliary: the constructor on a fully populated options object with a
truthy DID. -/
theorem construct_ok (env : Env) (d : String) (doc : Doc) (dh : Option String)
    (kd : String) (hd : d ≠ "") :
    construct env
        { did := some d, document := some doc, documentHash := dh
          keyring := some kd }
      = (Except.ok
          { did := d, document := doc
            documentHash := jsOrStr dh ((splitColon d)[2]?)
            keyring := env.restoreKeyring kd },
         [Effect.initIpfs, Effect.registerResolver]) := by
  rw [construct]
  dsimp only
  rw [if_neg hd]

/-- Auxiliary: `opts.documentHash || did.split(':')[2]` collapses to the
freshly published content address when the address is passed alongside the
DID derived from it. -/
theorem jsOrStr_publish (hsh : String) :
    jsOrStr (some hsh) ((splitColon ("did:muport:" ++ hsh))[2]?) = some hsh := by
  by_cases hh : hsh = ""
  · subst hh
    decide
  · have ht : strTruthy (some hsh) = true := by
      simp [strTruthy, hh]
    rw [jsOrStr, if_pos ht]

/-- Auxiliary: inversion of a successful `publishAndConstruct`. -/
theorem publishAndConstruct_ok (env : Env) (kr : Keyring) (name : String)
    (rn : Option RecoveryNetwork) (se : Option (List EncDid))
    (effs0 : List Effect) (st : MuPortState) (effs : List Effect)
    (h : publishAndConstruct env kr name rn se effs0 = (Except.ok st, effs)) :
    ∃ hsh,
      env.ipfsAddJSON (createMuportDocument kr.getPublicKeys rn
        (some { name := name }) (some { symEncDids := se })) = Except.ok hsh ∧
      st = { did := "did:muport:" ++ hsh
             document := createMuportDocument kr.getPublicKeys rn
               (some { name := name }) (some { symEncDids := se })
             documentHash := some hsh
             keyring := env.restoreKeyring kr.serializedForm } := by
  rw [publishAndConstruct] at h
  dsimp only at h
  split at h
  · simp at h
  · rename_i docHash heq
    rw [construct_ok env _ _ _ _ (did_of_hash_ne_empty docHash)] at h
    dsimp only at h
    simp only [Prod.mk.injEq, Except.ok.injEq] at h
    refine ⟨docHash, heq, ?_⟩
    rw [← h.1, jsOrStr_publish]

/-- Auxiliary: a failed `publishAndConstruct` only propagates a
collaborator error. -/
theorem publishAndConstruct_err (env : Env) (kr : Keyring) (name : String)
    (rn : Option RecoveryNetwork) (se : Option (List EncDid))
    (effs0 : List Effect) (e : Err) (effs : List Effect)
    (h : publishAndConstruct env kr name rn se effs0 = (Except.error e, effs)) :
    ∃ msg, e = Err.ext msg := by
  rw [publishAndConstruct] at h
  dsimp only at h
  split at h
  · rename_i msg heq
    simp only [Prod.mk.injEq, Except.error.injEq] at h
    exact ⟨msg, h.1.symm⟩
  · rename_i docHash heq
    rw [construct_ok env _ _ _ _ (did_of_hash_ne_empty docHash)] at h
    dsimp only at h
    simp at h

/-- Auxiliary: inversion of a successful `newIdentity` without delegates. -/
theorem newIdentity_none_ok (env : Env) (kr : Keyring) (b : Bs58)
    (name : String) (st : MuPortState) (effs : List Effect)
    (h : newIdentity env kr b name none = (Except.ok st, effs)) :
    ∃ hsh,
      env.ipfsAddJSON (createMuportDocument kr.getPublicKeys none
        (some { name := name }) (some { symEncDids := none })) = Except.ok hsh ∧
      st = { did := "did:muport:" ++ hsh
             document := createMuportDocument kr.getPublicKeys none
               (some { name := name }) (some { symEncDids := none })
             documentHash := some hsh
             keyring := env.restoreKeyring kr.serializedForm } := by
  rw [newIdentity] at h
  exact publishAndConstruct_ok env kr name none none [Effect.initIpfs] st effs h

/-- Auxiliary: inversion of a successful `newIdentity` with a delegate
list. -/
theorem newIdentity_some_ok (env : Env) (kr : Keyring) (b : Bs58)
    (name : String) (dids : List String) (st : MuPortState)
    (effs : List Effect)
    (h : newIdentity env kr b name (some dids) = (Except.ok st, effs)) :
    ∃ rn hsh,
      env.ipfsAddJSON (createMuportDocument kr.getPublicKeys (some rn)
        (some { name := name })
        (some { symEncDids := some (encryptDids kr b dids) }))
        = Except.ok hsh ∧
      st = { did := "did:muport:" ++ hsh
             document := createMuportDocument kr.getPublicKeys (some rn)
               (some { name := name })
               (some { symEncDids := some (encryptDids kr b dids) })
             documentHash := some hsh
             keyring := env.restoreKeyring kr.serializedForm } := by
  rw [newIdentity] at h
  split at h
  · simp at h
  · rename_i ks effs1 heq
    split at h
    · simp at h
    · rename_i rnV heqCS
      obtain ⟨hsh, h1, h2⟩ := publishAndConstruct_ok env kr name (some rnV)
        (some (encryptDids kr b dids))
        (Effect.initIpfs :: (effs1 ++ [Effect.createShares])) st effs h
      exact ⟨rnV, hsh, h1, h2⟩

/-- C6: a `newIdentity` identity's DID is the scheme prefixed content
address returned by publishing the assembled document, and the stored
`documentHash` is that same content address. -/
theorem newIdentity_did_is_published_hash (env : Env) (kr : Keyring)
    (b : Bs58) (name : String) (dd : Option (List String))
    (st : MuPortState) (effs : List Effect)
    (h : newIdentity env kr b name dd = (Except.ok st, effs)) :
    ∃ hsh, env.ipfsAddJSON st.document = Except.ok hsh ∧
      st.did = "did:muport:" ++ hsh ∧ st.documentHash = some hsh := by
  cases dd with
  | none =>
    obtain ⟨hsh, h1, h2⟩ := newIdentity_none_ok env kr b name st effs h
    subst h2
    exact ⟨hsh, h1, rfl, rfl⟩
  | some dids =>
    obtain ⟨rn, hsh, h1, h2⟩ := newIdentity_some_ok env kr b name dids st effs h
    subst h2
    exact ⟨hsh, h1, rfl, rfl⟩

/-- Witness for C6 at concrete inputs. -/
theorem newIdentity_did_is_published_hash_witness :
    ∃ hsh, env0.ipfsAddJSON stW7.document = Except.ok hsh ∧
      stW7.did = "did:muport:" ++ hsh ∧ stW7.documentHash = some hsh :=
  newIdentity_did_is_published_hash env0 kr0 b0 "alice" (some dids3)
    stW7 effsW7 rfl

/-- C3 counterexample: an identity created without delegates nevertheless
carries the `symEncryptedData` key in its document (holding an object whose
`symEncDids` is absent), because `newIdentity` always passes the truthy
wrapper object literal. -/
theorem newIdentity_no_delegates_symenc_present :
    (newIdentity env0 kr0 b0 "bob" none).1 = Except.ok stW3 ∧
    okHasSymEncField (newIdentity env0 kr0 b0 "bob" none).1 = true := by
  exact ⟨rfl, rfl⟩

/-- C3 amended: `createMuportDocument` itself stores each optional field
exactly as supplied (absent argument ⇒ absent field), but `newIdentity`
always supplies the profile and the `symEncryptedData` wrapper, so an
identity created without delegates omits only `recoveryNetwork`; its
document still carries `publicProfile` and a `symEncryptedData` object with
no `symEncDids` inside. -/
theorem newIdentity_optional_fields (pk : PublicKeys)
    (rn : Option RecoveryNetwork) (pp : Option PublicProfile)
    (sed : Option SymEncryptedData) (env : Env) (kr : Keyring) (b : Bs58)
    (name : String) (st : MuPortState) (effs : List Effect)
    (h : newIdentity env kr b name none = (Except.ok st, effs)) :
    ((createMuportDocument pk rn pp sed).recoveryNetwork = rn ∧
     (createMuportDocument pk rn pp sed).publicProfile = pp ∧
     (createMuportDocument pk rn pp sed).symEncryptedData = sed) ∧
    st.document.recoveryNetwork = none ∧
    st.document.publicProfile = some { name := name } ∧
    st.document.symEncryptedData = some { symEncDids := none } := by
  refine ⟨⟨rfl, rfl, rfl⟩, ?_⟩
  obtain ⟨hsh, h1, h2⟩ := newIdentity_none_ok env kr b name st effs h
  subst h2
  exact ⟨rfl, rfl, rfl⟩

/-- Witness for C3's amended theorem at concrete inputs. -/
theorem newIdentity_optional_fields_witness :
    ((createMuportDocument pk0 none none none).recoveryNetwork = none ∧
     (createMuportDocument pk0 none none none).publicProfile = none ∧
     (createMuportDocument pk0 none none none).symEncryptedData = none) ∧
    stW3.document.recoveryNetwork = none ∧
    stW3.document.publicProfile = some { name := "bob" } ∧
    stW3.document.symEncryptedData = some { symEncDids := none } :=
  newIdentity_optional_fields pk0 none none none env0 kr0 b0 "bob"
    stW3 effsW3 rfl

/-- C7: for an identity created with a 3-element delegate DID list,
decrypting the stored encrypted delegate list returns exactly the original
DIDs in order, assuming the keyring's symmetric decryption inverts its
encryption on these buffers, the base58 round trip holds for these DIDs,
and restoring the serialized keyring reproduces it. -/
theorem getRecoveryDelegateDids_roundtrip (env : Env) (kr : Keyring)
    (b : Bs58) (name : String) (dids : List String) (st : MuPortState)
    (effs : List Effect)
    (_hlen : dids.length = 3)
    (hrun : newIdentity env kr b name (some dids) = (Except.ok st, effs))
    (hkr : env.restoreKeyring kr.serializedForm = kr)
    (hdec : ∀ d ∈ dids,
      kr.symDecrypt (kr.symEncrypt (didToBuffer b d)).ciphertext
        (kr.symEncrypt (didToBuffer b d)).nonce = didToBuffer b d)
    (hdid : ∀ d ∈ dids, bufferToDid b (didToBuffer b d) = d) :
    getRecoveryDelegateDids b st = Except.ok dids := by
  obtain ⟨rn, hsh, h1, h2⟩ := newIdentity_some_ok env kr b name dids st effs hrun
  subst h2
  have hmap : (encryptDids kr b dids).map
      (fun e => bufferToDid b (kr.symDecrypt e.ciphertext e.nonce)) = dids := by
    rw [encryptDids, List.map_map]
    refine listMapSelf _ dids (fun d hd => ?_)
    simp only [Function.comp_apply]
    rw [hdec d hd, hdid d hd]
  dsimp only [getRecoveryDelegateDids, createMuportDocument]
  rw [hkr, hmap]

/-- Witness for C7 at concrete inputs. -/
theorem getRecoveryDelegateDids_roundtrip_witness :
    getRecoveryDelegateDids b0 stW7 = Except.ok dids3 :=
  getRecoveryDelegateDids_roundtrip env0 kr0 b0 "alice" dids3 stW7 effsW7
    (by decide) rfl rfl (by decide) (by decide)

/-- C8 counterexample: `newIdentity` accepts a 2-element delegate list
containing a duplicate identifier — no validation failure occurs. -/
theorem newIdentity_accepts_invalid_delegates :
    (newIdentity env0 kr0 b0 "carol"
      (some ["did:muport:a", "did:muport:a"])).1.isOk = true := by
  exact rfl

/-- C8 amended: `newIdentity` performs no validation of the delegate list
at all — any length, duplicates included, is accepted (and the owner's own
identifier cannot even be checked, since the DID only comes into existence
after publication); every possible `newIdentity` failure is a propagated
collaborator error, never a validation error. -/
theorem newIdentity_never_validation_error (env : Env) (kr : Keyring)
    (b : Bs58) (name : String) (dd : Option (List String)) (e : Err)
    (effs : List Effect)
    (h : newIdentity env kr b name dd = (Except.error e, effs)) :
    ∃ msg, e = Err.ext msg := by
  cases dd with
  | none =>
    rw [newIdentity] at h
    exact publishAndConstruct_err env kr name none none [Effect.initIpfs]
      e effs h
  | some dids =>
    rw [newIdentity] at h
    split at h
    · rename_i msg effs1 heq
      simp only [Prod.mk.injEq, Except.error.injEq] at h
      exact ⟨msg, h.1.symm⟩
    · rename_i ks effs1 heq
      split at h
      · rename_i msg heqCS
        simp only [Prod.mk.injEq, Except.error.injEq] at h
        exact ⟨msg, h.1.symm⟩
      · rename_i rnV heqCS
        exact publishAndConstruct_err env kr name (some rnV)
          (some (encryptDids kr b dids))
          (Effect.initIpfs :: (effs1 ++ [Effect.createShares])) e effs h

/-- Witness for C8's amended theorem: a resolution failure surfaces as a
collaborator error. -/
theorem newIdentity_never_validation_error_witness :
    ∃ msg, Err.ext "resolver down" = Err.ext msg :=
  newIdentity_never_validation_error envResolveFail kr0 b0 "dave"
    (some dids3) (Err.ext "resolver down")
    [Effect.initIpfs, Effect.resolveDid "did:muport:a"] rfl

/-- C9: `serializeState` returns exactly the four fields `did`, `document`,
`documentHash` and the serialized keyring, and feeding that serialized
state back into the constructor succeeds and reproduces the original `did`,
`document` and `documentHash` (for any identity whose `did` and
`documentHash` are truthy, as every published identity's are). -/
theorem serializeState_roundtrip (env : Env) (s : MuPortState)
    (h1 : s.did ≠ "") (h2 : strTruthy s.documentHash = true) :
    serializeState s = { did := s.did, document := s.document
                         documentHash := s.documentHash
                         keyring := s.keyring.serializedForm } ∧
    construct env (optsOfSerialized (serializeState s))
      = (Except.ok { did := s.did, document := s.document
                     documentHash := s.documentHash
                     keyring := env.restoreKeyring s.keyring.serializedForm },
         [Effect.initIpfs, Effect.registerResolver]) := by
  refine ⟨rfl, ?_⟩
  have hform : optsOfSerialized (serializeState s)
      = { did := some s.did, document := some s.document
          documentHash := s.documentHash
          keyring := some s.keyring.serializedForm } := rfl
  rw [hform, construct_ok env s.did s.document s.documentHash
    s.keyring.serializedForm h1]
  have hjs : jsOrStr s.documentHash ((splitColon s.did)[2]?) = s.documentHash := by
    rw [jsOrStr, if_pos h2]
  rw [hjs]

/-- Witness for C9 at concrete inputs. -/
theorem serializeState_roundtrip_witness :
    serializeState s0 = { did := s0.did, document := s0.document
                          documentHash := s0.documentHash
                          keyring := s0.keyring.serializedForm } ∧
    construct env0 (optsOfSerialized (serializeState s0))
      = (Except.ok { did := s0.did, document := s0.document
                     documentHash := s0.documentHash
                     keyring := env0.restoreKeyring s0.keyring.serializedForm },
         [Effect.initIpfs, Effect.registerResolver]) :=
  serializeState_roundtrip env0 s0 (by decide) (by decide)

/-- C10: the constructor fails — with no effect performed — exactly when
`did`, `document` or `keyring` is missing (falsy); and when constructed
without an explicit `documentHash`, the stored `documentHash` is the third
colon-separated segment of the DID string. -/
theorem construct_guard (env : Env) (opts : CtorOpts) :
    ((opts.did = none ∨ opts.did = some "" ∨ opts.document = none ∨
        opts.keyring = none) →
      construct env opts
        = (Except.error (Err.jsError "Data missing for restoring identity"),
           [])) ∧
    (∀ d doc kd, opts.did = some d → d ≠ "" → opts.document = some doc →
      opts.keyring = some kd → opts.documentHash = none →
      construct env opts
        = (Except.ok { did := d, document := doc
                       documentHash := (splitColon d)[2]?
                       keyring := env.restoreKeyring kd },
           [Effect.initIpfs, Effect.registerResolver])) := by
  obtain ⟨od, odoc, odh, okr⟩ := opts
  constructor
  · intro hmiss
    dsimp only at hmiss
    rcases hmiss with h | h | h | h
    · subst h; rfl
    · subst h
      cases odoc <;> cases okr <;> rfl
    · subst h
      cases od <;> rfl
    · subst h
      cases od <;> cases odoc <;> rfl
  · intro d doc kd hd hne hdoc hkd hdh
    dsimp only at hd hdoc hkd hdh
    subst hd; subst hdoc; subst hkd; subst hdh
    rw [construct_ok env d doc none kd hne]
    rfl

/-- Witness for C10: a missing DID throws with no effects; a present,
hash-free options object stores the DID's third segment as the hash. -/
theorem construct_guard_witness :
    construct env0 { did := none, document := some doc0
                     documentHash := none, keyring := some "kd" }
      = (Except.error (Err.jsError "Data missing for restoring identity"),
         []) ∧
    construct env0 { did := some "did:muport:xyz", document := some doc0
                     documentHash := none, keyring := some "kd" }
      = (Except.ok { did := "did:muport:xyz", document := doc0
                     documentHash := (splitColon "did:muport:xyz")[2]?
                     keyring := env0.restoreKeyring "kd" },
         [Effect.initIpfs, Effect.registerResolver]) :=
  ⟨(construct_guard env0 _).1 (Or.inl rfl),
   (construct_guard env0 _).2 "did:muport:xyz" doc0 "kd" rfl (by decide)
     rfl rfl rfl⟩

end Muport

